import Mathlib

/-!
Verification of the core logic of a Slack → Flowise relay bot.

The development shallowly embeds the pure text-processing core of the
repository's JavaScript sources (`src/app.js` and the unnamed variant
`src/unnamed/part_000`):

* the eligibility filter `shouldProcessMessage` (both revisions),
* the session-key derivation `sessionId`,
* the markdown → Slack-mrkdwn transcoder `convertMarkdownToSlack`
  (embedded via a small backtracking regular-expression engine so that each
  JavaScript `String.replace` pass is driven by the source's regex),
* the block segmenter `createSlackBlocks`,
* the response extractor `extractCleanResponse`.

JavaScript strings are modelled as Lean `String` / `List Char`; `undefined`
fields as `Option`; truthiness of an optional string field as "present and
non-empty".  All functions are executable; recursion that is not structural
is driven by explicit fuel so that concrete runs reduce inside the kernel.
-/

/-! ## JavaScript string primitives -/

/-- JavaScript `\s` (whitespace) character class: space, tab, line feed,
vertical tab, form feed, carriage return, and the usual Unicode space
characters. -/
def jsWs (c : Char) : Bool :=
  c = ' ' || c = '\t' || c = '\n' || c = Char.ofNat 11 || c = Char.ofNat 12 ||
  c = Char.ofNat 13 || c = Char.ofNat 0xa0 || c = Char.ofNat 0x1680 ||
  (Char.ofNat 0x2000 ≤ c && c ≤ Char.ofNat 0x200a) ||
  c = Char.ofNat 0x2028 || c = Char.ofNat 0x2029 || c = Char.ofNat 0x202f ||
  c = Char.ofNat 0x205f || c = Char.ofNat 0x3000 || c = Char.ofNat 0xfeff

/-- JavaScript `.` (dot) character class: any character except the four
line terminators. -/
def dotCls (c : Char) : Bool :=
  !(c = '\n' || c = Char.ofNat 13 || c = Char.ofNat 0x2028 || c = Char.ofNat 0x2029)

/-- JavaScript `\w` character class. -/
def wordChar (c : Char) : Bool :=
  ('a' ≤ c && c ≤ 'z') || ('A' ≤ c && c ≤ 'Z') || ('0' ≤ c && c ≤ '9') || c = '_'

/-- JavaScript `\d` character class. -/
def digitChar (c : Char) : Bool :=
  '0' ≤ c && c ≤ '9'

/-- The backtick character. -/
def backtickChar : Char := Char.ofNat 96

/-- `leadsWith p l` is true when the char list `p` is an initial segment of
`l`; the model of JavaScript `String.prototype.startsWith`. -/
def leadsWith : List Char → List Char → Bool
  | [], _ => true
  | _ :: _, [] => false
  | p :: ps, c :: cs => p = c && leadsWith ps cs

/-- `containsSub n h` is true when the char list `n` occurs contiguously in
`h`; the model of JavaScript `String.prototype.includes`. -/
def containsSub (n : List Char) : List Char → Bool
  | [] => leadsWith n []
  | c :: cs => leadsWith n (c :: cs) || containsSub n cs

/-- JavaScript `String.prototype.trim` on char lists (strips `\s` from both
ends). -/
def jsTrimL (l : List Char) : List Char :=
  ((l.dropWhile jsWs).reverse.dropWhile jsWs).reverse

/-- JavaScript `String.prototype.trim`. -/
def jsTrim (s : String) : String :=
  String.mk (jsTrimL s.data)

/-- Truthiness of an optional JavaScript string: `undefined` and the empty
string are falsy, every other string is truthy. -/
def truthyS : Option String → Bool
  | none => false
  | some s => !(s = "")

/-- JavaScript `String.prototype.split(sep)` for a one-character separator,
on char lists.  The result is always non-empty; the empty list splits to
`[[]]`. -/
def splitOnChar (sep : Char) : List Char → List (List Char)
  | [] => [[]]
  | c :: rest =>
    if c = sep then [] :: splitOnChar sep rest
    else
      match splitOnChar sep rest with
      | [] => [[c]]
      | seg :: segs => (c :: seg) :: segs

/-- JavaScript `Array.prototype.join(sep)` on strings. -/
def joinSep (sep : String) : List String → String
  | [] => ""
  | [x] => x
  | x :: xs => x ++ sep ++ joinSep sep xs

/-- Non-overlapping, leftmost replacement of the literal pattern `pat` by
`repl`, the model of a JavaScript global replace of a regex with no
metacharacters (used by the emoji pass).  The fuel is the length of the
remaining input. -/
def replaceAllLitAux (pat repl : List Char) : Nat → List Char → List Char
  | _, [] => []
  | 0, l => l
  | n + 1, c :: cs =>
    if leadsWith pat (c :: cs) then
      repl ++ replaceAllLitAux pat repl n (List.drop (pat.length - 1) cs)
    else
      c :: replaceAllLitAux pat repl n cs

/-! ## A backtracking regular-expression engine

Enough of JavaScript's regex dialect for the transcoder's patterns: character
classes, concatenation, alternation, greedy and lazy repetition, capture
groups, and the multiline anchors `^` / `$`.  The matcher is a
continuation-passing backtracking search whose recursion is driven by fuel,
so concrete runs reduce by `decide`. -/

/-- Regular expressions over characters. -/
inductive RE where
  | eps : RE
  | cls (p : Char → Bool) : RE
  | cat (a b : RE) : RE
  | alt (a b : RE) : RE
  | star (lz : Bool) (a : RE) : RE
  | group (idx : Nat) (a : RE) : RE
  | bol : RE
  | eol : RE

/-- Capture list: slot `i` holds the span `(start, stop)` last recorded by
group `i`. -/
abbrev Caps := List (Option (Nat × Nat))

/-- Record the span of capture group `idx`. -/
def setCap (caps : Caps) (idx : Nat) (sp : Nat × Nat) : Caps :=
  (caps ++ List.replicate (idx + 1 - caps.length) none).set idx (some sp)

/-- Backtracking matcher.  `reMatch fuel s re i caps k` tries to match `re`
at position `i` of `s` and passes the end position and captures of each
candidate match to the continuation `k`, in the order JavaScript's engine
would try them (alternation left first, greedy repetition longest first,
lazy repetition shortest first). -/
def reMatch : Nat → List Char → RE → Nat → Caps →
    (Nat → Caps → Option (Nat × Caps)) → Option (Nat × Caps)
  | 0, _, _, _, _, _ => none
  | fuel + 1, s, re, i, caps, k =>
    match re with
    | .eps => k i caps
    | .cls p =>
      match s[i]? with
      | some c => if p c then k (i + 1) caps else none
      | none => none
    | .cat a b =>
      reMatch fuel s a i caps (fun j caps2 => reMatch fuel s b j caps2 k)
    | .alt a b =>
      match reMatch fuel s a i caps k with
      | some r => some r
      | none => reMatch fuel s b i caps k
    | .star lz a =>
      if lz then
        match k i caps with
        | some r => some r
        | none =>
          reMatch fuel s a i caps (fun j caps2 =>
            if j = i then none else reMatch fuel s (.star true a) j caps2 k)
      else
        match reMatch fuel s a i caps (fun j caps2 =>
            if j = i then none else reMatch fuel s (.star false a) j caps2 k) with
        | some r => some r
        | none => k i caps
    | .group idx a =>
      reMatch fuel s a i caps (fun j caps2 => k j (setCap caps2 idx (i, j)))
    | .bol =>
      if i = 0 then k i caps
      else
        match s[i - 1]? with
        | some c => if c = '\n' then k i caps else none
        | none => none
    | .eol =>
      match s[i]? with
      | some c => if c = '\n' then k i caps else none
      | none => k i caps

/-- Matcher fuel: a generous bound on the backtracking depth for the
transcoder's patterns. -/
def mFuel (s : List Char) : Nat := 32 * s.length + 256

/-- Try to match `re` at position `i`; on success return the end of the
match and the captures. -/
def reTryAt (s : List Char) (re : RE) (i : Nat) : Option (Nat × Caps) :=
  reMatch (mFuel s) s re i [] (fun j caps => some (j, caps))

/-- Leftmost match search from position `i` (the fuel counts the candidate
start positions still to try). -/
def reFindAux (s : List Char) (re : RE) : Nat → Nat → Option (Nat × Nat × Caps)
  | _, 0 => none
  | i, n + 1 =>
    match reTryAt s re i with
    | some (j, caps) => some (i, j, caps)
    | none => if i < s.length then reFindAux s re (i + 1) n else none

/-- Leftmost match of `re` in `s` starting at or after `pos`. -/
def reFind (s : List Char) (re : RE) (pos : Nat) : Option (Nat × Nat × Caps) :=
  reFindAux s re pos (s.length + 1 - pos)

/-- Resolve capture spans into the captured substrings. -/
def resolveCaps (s : List Char) (caps : Caps) : List (Option (List Char)) :=
  caps.map (fun o => o.map (fun p => (s.drop p.1).take (p.2 - p.1)))

/-- Captured substring of group `n` (empty when the group did not
participate). -/
def capStr (caps : List (Option (List Char))) (n : Nat) : List Char :=
  (caps.getD n none).getD []

/-- Captured substring of group `n`, `none` when the group did not
participate (JavaScript `undefined`). -/
def capOpt (caps : List (Option (List Char))) (n : Nat) : Option (List Char) :=
  caps.getD n none

/-- Global regex replace, the model of JavaScript
`String.prototype.replace(/re/g, f)`: repeatedly take the leftmost match at
or after the current position, emit `f match caps` in its place, and resume
after the match (one character further when the match is empty). -/
def reGReplaceAux (s : List Char) (re : RE)
    (f : List Char → List (Option (List Char)) → List Char) :
    Nat → Nat → List Char
  | pos, 0 => s.drop pos
  | pos, n + 1 =>
    match reFind s re pos with
    | none => s.drop pos
    | some (i, j, caps) =>
      let pre := (s.drop pos).take (i - pos)
      let matched := (s.drop i).take (j - i)
      let repl := f matched (resolveCaps s caps)
      if i < j then pre ++ repl ++ reGReplaceAux s re f j n
      else
        match s.drop i with
        | [] => pre ++ repl
        | c :: _ => pre ++ repl ++ c :: reGReplaceAux s re f (i + 1) n

/-- One global-replace pass over a char list. -/
def runPass (re : RE) (f : List Char → List (Option (List Char)) → List Char)
    (s : List Char) : List Char :=
  reGReplaceAux s re f 0 (s.length + 1)

/-- Regex matching exactly the character `c`. -/
def reLit (c : Char) : RE := .cls (fun x => x = c)

/-- Regex matching the literal char sequence `l`. -/
def reStr : List Char → RE
  | [] => .eps
  | c :: cs => .cat (reLit c) (reStr cs)

/-- Greedy `+`. -/
def rePlus (a : RE) : RE := .cat a (.star false a)

/-- Lazy `+?`. -/
def rePlusLazy (a : RE) : RE := .cat a (.star true a)

/-- Greedy `?`. -/
def reOpt (a : RE) : RE := .alt a .eps

/-! ## The transcoder's regexes (`src/app.js` lines 183–231) -/

/-- `\|[^\n]+\|\n` — one pipe-delimited table row ending in a newline. -/
def pipeRowRE : RE :=
  .cat (reLit '|')
    (.cat (rePlus (.cls (fun c => !(c = '\n'))))
      (.cat (reLit '|') (reLit '\n')))

/-- `\|[-:\|\s]+\|\n` — the markdown table separator row. -/
def sepRowRE : RE :=
  .cat (reLit '|')
    (.cat (rePlus (.cls (fun c => c = '-' || c = ':' || c = '|' || jsWs c)))
      (.cat (reLit '|') (reLit '\n')))

/-- `(\|[^\n]+\|\n)((?:\|[-:\|\s]+\|\n))(\|[^\n]+\|\n)+` — a markdown
table: header row, separator row, one or more body rows. -/
def tableRE : RE :=
  .cat (.group 1 pipeRowRE) (.cat (.group 2 sepRowRE) (rePlus (.group 3 pipeRowRE)))

/-- ```` ```(\w+)?\n([\s\S]*?)``` ```` — a fenced code block with an
optional language tag. -/
def codeBlockRE : RE :=
  .cat (reStr "```".data)
    (.cat (reOpt (.group 1 (rePlus (.cls wordChar))))
      (.cat (reLit '\n')
        (.cat (.group 2 (.star true (.cls (fun _ => true))))
          (reStr "```".data))))

/-- `` `([^`]+)` `` — an inline code span. -/
def inlineCodeRE : RE :=
  .cat (reLit backtickChar)
    (.cat (.group 1 (rePlus (.cls (fun c => !(c = backtickChar)))))
      (reLit backtickChar))

/-- `#{1,6}` — one to six hashes, greedy. -/
def hashRunRE : RE :=
  .cat (reLit '#') (reOpt (.cat (reLit '#') (reOpt (.cat (reLit '#')
    (reOpt (.cat (reLit '#') (reOpt (.cat (reLit '#') (reOpt (reLit '#'))))))))))

/-- `^(#{1,6})\s+(.+)$` (multiline) — an ATX markdown header line. -/
def headerRE : RE :=
  .cat .bol
    (.cat (.group 1 hashRunRE)
      (.cat (rePlus (.cls jsWs))
        (.cat (.group 2 (rePlus (.cls dotCls))) .eol)))

/-- `\*\*(.+?)\*\*` — markdown bold. -/
def boldRE : RE :=
  .cat (reStr "**".data)
    (.cat (.group 1 (rePlusLazy (.cls dotCls))) (reStr "**".data))

/-- `_(.+?)_` — underscore italic. -/
def underscoreItalicRE : RE :=
  .cat (reLit '_') (.cat (.group 1 (rePlusLazy (.cls dotCls))) (reLit '_'))

/-- `\*([^*]+)\*` — single-asterisk italic. -/
def starItalicRE : RE :=
  .cat (reLit '*')
    (.cat (.group 1 (rePlus (.cls (fun c => !(c = '*'))))) (reLit '*'))

/-- `^(\s*)-\s+(.+)$` (multiline) — a bulleted list item. -/
def bulletRE : RE :=
  .cat .bol
    (.cat (.group 1 (.star false (.cls jsWs)))
      (.cat (reLit '-')
        (.cat (rePlus (.cls jsWs))
          (.cat (.group 2 (rePlus (.cls dotCls))) .eol))))

/-- `^(\s*)\d+\.\s+(.+)$` (multiline) — a numbered list item. -/
def numberedRE : RE :=
  .cat .bol
    (.cat (.group 1 (.star false (.cls jsWs)))
      (.cat (rePlus (.cls digitChar))
        (.cat (reLit '.')
          (.cat (rePlus (.cls jsWs))
            (.cat (.group 2 (rePlus (.cls dotCls))) .eol)))))

/-- `^>\s+(.+)$` (multiline) — a block-quote line with text. -/
def quoteTextRE : RE :=
  .cat .bol
    (.cat (reLit '>')
      (.cat (rePlus (.cls jsWs))
        (.cat (.group 1 (rePlus (.cls dotCls))) .eol)))

/-- `^>\s*$` (multiline) — a bare block-quote marker line. -/
def quoteEmptyRE : RE :=
  .cat .bol (.cat (reLit '>') (.cat (.star false (.cls jsWs)) .eol))

/-- `\[([^\]]+)\]\(([^)]+)\)` — a markdown link. -/
def linkRE : RE :=
  .cat (reLit '[')
    (.cat (.group 1 (rePlus (.cls (fun c => !(c = ']')))))
      (.cat (reLit ']')
        (.cat (reLit '(')
          (.cat (.group 2 (rePlus (.cls (fun c => !(c = ')')))))
            (reLit ')')))))

/-! ## The transcoder (`convertTable` and `convertMarkdownToSlack`,
`src/app.js` lines 110–231, `src/unnamed/part_000` lines 24–151) -/

/-- Language display names for code-block tags. -/
def languageMap : List (String × String) :=
  [("python", "Python"), ("javascript", "JavaScript"), ("js", "JavaScript"),
   ("typescript", "TypeScript"), ("ts", "TypeScript"), ("java", "Java"),
   ("cpp", "C++"), ("c++", "C++"), ("csharp", "C#"), ("c#", "C#"),
   ("ruby", "Ruby"), ("php", "PHP"), ("go", "Go"), ("rust", "Rust"),
   ("swift", "Swift"), ("kotlin", "Kotlin"), ("sql", "SQL"), ("html", "HTML"),
   ("css", "CSS"), ("shell", "Shell"), ("bash", "Bash"), ("json", "JSON"),
   ("xml", "XML"), ("yaml", "YAML"), ("markdown", "Markdown"), ("md", "Markdown")]

/-- Emoji shortcode substitutions, in the source's insertion order. -/
def emojiMap : List (String × String) :=
  [(":smile:", ":smile:"), (":thumbsup:", ":+1:"),
   (":check:", ":white_check_mark:"), (":warning:", ":warning:"),
   (":info:", ":information_source:"), (":star:", ":star:"),
   (":question:", ":question:"), (":x:", ":x:"),
   (":heavy_check_mark:", ":white_check_mark:"), (":clipboard:", ":clipboard:")]

/-- `languageMap[lang.toLowerCase()]` lookup. -/
def lookupLang (l : String) : Option String :=
  (languageMap.find? (fun p => p.1 = l)).map (fun p => p.2)

/-- Format one table row (`rows.forEach` body of `convertTable`): skip the
separator row, bold the cells of the header row, and join cells with
`" | "`. -/
def tableRow (idxRow : Nat × String) : String :=
  let idx := idxRow.1
  let row := idxRow.2
  let cells :=
    (((splitOnChar '|' row.data).map String.mk).filter (fun c => !(jsTrim c = ""))).map jsTrim
  if idx = 1 && containsSub "|-".data row.data then ""
  else if idx = 0 then
    joinSep " | " (cells.map (fun c => "*" ++ c ++ "*")) ++ "\n"
  else
    joinSep " | " cells ++ "\n"

/-- `convertTable` (`src/app.js` lines 155–180): trim the matched table
text, split it into rows, format each row, and wrap the result in a fence. -/
def convertTable (tableText : String) : String :=
  let rows := (splitOnChar '\n' (jsTrimL tableText.data)).map String.mk
  "```" ++ String.join (rows.enum.map tableRow) ++ "```"

/-- The table pass: `text.replace(tableRegex, m => convertTable(m))`. -/
def tablePass (s : List Char) : List Char :=
  runPass tableRE (fun m _ => (convertTable (String.mk m)).data) s

/-- The fenced-code pass: canonicalize the language tag through
`languageMap`, defaulting to the tag itself, or to no tag when absent. -/
def codeBlockPass (s : List Char) : List Char :=
  runPass codeBlockRE (fun _ caps =>
    let code := capStr caps 2
    let language :=
      match capOpt caps 1 with
      | some lang =>
        ((lookupLang (String.mk (lang.map Char.toLower))).getD (String.mk lang)).data
      | none => []
    "```".data ++ language ++ '\n' :: code ++ "```".data) s

/-- The inline-code pass: `` `$1` `` (replaces each span by itself). -/
def inlineCodePass (s : List Char) : List Char :=
  runPass inlineCodeRE (fun _ caps =>
    backtickChar :: capStr caps 1 ++ [backtickChar]) s

/-- The header pass: a bold-delimiter run capped at three asterisks around
the header text, plus a trailing newline. -/
def headerPass (s : List Char) : List Char :=
  runPass headerRE (fun _ caps =>
    let hashes := capStr caps 1
    let content := capStr caps 2
    let pre := List.replicate (min hashes.length 3) '*'
    pre ++ content ++ pre ++ ['\n']) s

/-- The bold pass: `**$1**` → `*$1*`. -/
def boldPass (s : List Char) : List Char :=
  runPass boldRE (fun _ caps => '*' :: capStr caps 1 ++ ['*']) s

/-- The underscore-italic pass: `_$1_` → `_$1_`. -/
def underscoreItalicPass (s : List Char) : List Char :=
  runPass underscoreItalicRE (fun _ caps => '_' :: capStr caps 1 ++ ['_']) s

/-- The single-asterisk italic pass: `*$1*` → `_$1_`. -/
def starItalicPass (s : List Char) : List Char :=
  runPass starItalicRE (fun _ caps => '_' :: capStr caps 1 ++ ['_']) s

/-- The bulleted-list pass: indent by half the leading whitespace, then a
bullet glyph. -/
def bulletPass (s : List Char) : List Char :=
  runPass bulletRE (fun _ caps =>
    let spaces := capStr caps 1
    let content := capStr caps 2
    (List.replicate (spaces.length / 2) "  ".data).flatten ++ "• ".data ++ content) s

/-- The numbered-list pass: same replacement as the bulleted-list pass. -/
def numberedPass (s : List Char) : List Char :=
  runPass numberedRE (fun _ caps =>
    let spaces := capStr caps 1
    let content := capStr caps 2
    (List.replicate (spaces.length / 2) "  ".data).flatten ++ "• ".data ++ content) s

/-- The block-quote pass: `> text` → `>>> text`. -/
def quoteTextPass (s : List Char) : List Char :=
  runPass quoteTextRE (fun _ caps => ">>> ".data ++ capStr caps 1) s

/-- The bare-quote pass: drop `>` lines with no trailing text. -/
def quoteEmptyPass (s : List Char) : List Char :=
  runPass quoteEmptyRE (fun _ _ => []) s

/-- The link pass: `[label](url)` → `<url|label>`. -/
def linkPass (s : List Char) : List Char :=
  runPass linkRE (fun _ caps =>
    '<' :: capStr caps 2 ++ '|' :: capStr caps 1 ++ ['>']) s

/-- The emoji pass: each shortcode of `emojiMap`, replaced globally, in
order. -/
def emojiPass (s : List Char) : List Char :=
  emojiMap.foldl (fun acc p => replaceAllLitAux p.1.data p.2.data acc.length acc) s

/-- `convertMarkdownToSlack` (`src/app.js` lines 183–231): the ordered
regex-replace pipeline — tables, fenced code, inline code, headers, bold,
underscore italic, single-asterisk italic, bulleted lists, numbered lists,
block quotes (text, then bare markers), links, emoji shortcodes. -/
def convertMarkdownToSlack (text : String) : String :=
  String.mk
    (emojiPass (linkPass (quoteEmptyPass (quoteTextPass (numberedPass
      (bulletPass (starItalicPass (underscoreItalicPass (boldPass
        (headerPass (inlineCodePass (codeBlockPass (tablePass text.data)))))))))))))

/-! ## Block segmenter (`createSlackBlocks`, `src/app.js` lines 234–260,
`src/unnamed/part_000` lines 154–199) -/

/-- JavaScript `String.prototype.split("\n\n")` on char lists: cut the list
at each non-overlapping, leftmost occurrence of two consecutive line feeds.
The result is always non-empty; the empty list splits to `[[]]`. -/
def splitDN : List Char → List (List Char)
  | [] => [[]]
  | '\n' :: '\n' :: rest => [] :: splitDN rest
  | c :: rest =>
    match splitDN rest with
    | [] => [[c]]
    | seg :: segs => (c :: seg) :: segs

/-- Join char-list segments with a double line feed; inverse of `splitDN`. -/
def joinDNL : List (List Char) → List Char
  | [] => []
  | [x] => x
  | x :: xs => x ++ '\n' :: '\n' :: joinDNL xs

/-- Join string segments with `"\n\n"`, the reconstruction operation of the
content-preservation claim. -/
def joinDN : List String → String
  | [] => ""
  | [x] => x
  | x :: xs => x ++ "\n\n" ++ joinDN xs

/-- `text.split('\n\n')` at the `String` level. -/
def jsSplitDN (s : String) : List String :=
  (splitDN s.data).map String.mk

/-- The `text` object of a Slack section block. -/
structure SlackTextObj where
  type : String
  text : String
  deriving DecidableEq, Repr

/-- One Slack block. -/
structure SlackBlock where
  type : String
  text : SlackTextObj
  deriving DecidableEq, Repr

/-- `createSlackBlocks`: split the transcoded text on blank lines and wrap
each segment in a section block.  The classification mirrors the source's
branches (code fence / quote / table / plain text), all of which push an
identical `mrkdwn` section. -/
def createSlackBlocks (text : String) : List SlackBlock :=
  (jsSplitDN text).map (fun seg =>
    if leadsWith "```".data seg.data then
      ⟨"section", ⟨"mrkdwn", seg⟩⟩
    else if leadsWith ">>>".data seg.data then
      ⟨"section", ⟨"mrkdwn", seg⟩⟩
    else if leadsWith "|".data (jsTrimL seg.data) && containsSub "\n".data seg.data then
      ⟨"section", ⟨"mrkdwn", seg⟩⟩
    else
      ⟨"section", ⟨"mrkdwn", seg⟩⟩)

/-! ## Response extractor (`extractCleanResponse`,
`src/unnamed/part_000` lines 202–238 and `src/app.js` lines 263–276) -/

/-- `content[i].text`. -/
structure TextVal where
  value : Option String
  deriving DecidableEq, Repr

/-- One entry of an assistant message's `content` array. -/
structure ContentItem where
  text : Option TextVal
  deriving DecidableEq, Repr

/-- One entry of the `assistant.messages` array. -/
structure AssistantMessage where
  role : String
  content : List ContentItem
  deriving DecidableEq, Repr

/-- The `assistant` object of a prediction response. -/
structure AssistantPart where
  messages : List AssistantMessage
  deriving DecidableEq, Repr

/-- A decoded prediction-service response payload, restricted to the fields
the extractor reads. -/
structure FlowisePayload where
  text : Option String
  assistant : Option AssistantPart
  deriving DecidableEq, Repr

/-- The fixed apology returned on any shape mismatch. -/
def apologyProcess : String :=
  "Sorry, I couldn\x27t process the response properly."

/-- `extractCleanResponse`, full revision (`src/unnamed/part_000` lines
202–238): a truthy top-level `text` wins; otherwise the first
assistant-role message's first content item's `text.value`, when truthy;
otherwise the apology. -/
def extractCleanResponse (r : FlowisePayload) : String :=
  if truthyS r.text then convertMarkdownToSlack (r.text.getD "")
  else
    match r.assistant with
    | none => apologyProcess
    | some a =>
      match a.messages.find? (fun m => m.role = "assistant") with
      | none => apologyProcess
      | some m =>
        match m.content.head? with
        | none => apologyProcess
        | some c0 =>
          match c0.text with
          | none => apologyProcess
          | some tv =>
            match tv.value with
            | none => apologyProcess
            | some v => if v = "" then apologyProcess else convertMarkdownToSlack v

/-- `extractCleanResponse`, first revision (`src/app.js` lines 263–276):
only the top-level `text` path, no assistant-messages fallback. -/
def extractCleanResponseV1 (r : FlowisePayload) : String :=
  if truthyS r.text then convertMarkdownToSlack (r.text.getD "")
  else apologyProcess

/-! ## Incoming Slack message events

The handlers read exactly the fields `text`, `channel`, `channel_type`,
`ts`, `thread_ts` and `bot_id` of the event payload. -/

/-- An incoming Slack message event, restricted to the fields the source
reads. `Option` models fields that may be absent (`undefined`). -/
structure SlackEvent where
  text : Option String
  channel : String
  channel_type : String
  ts : String
  thread_ts : Option String
  bot_id : Option String
  deriving DecidableEq, Repr

/-- ``event.text?.includes(`<@${botUserId}>`)``: the event text is present
and contains the bot-mention token. -/
def hasBotMention (botUserId : String) (e : SlackEvent) : Bool :=
  match e.text with
  | none => false
  | some t => containsSub ("<@" ++ botUserId ++ ">").data t.data

/-- Eligibility filter, first revision (`src/app.js` lines 279–319).
`botUserId` is the module-level bot identity the closure reads. -/
def shouldProcessMessage (botUserId : String) (e : SlackEvent) : Bool :=
  let isDM := e.channel_type = "im"
  let isChannel := e.channel_type = "channel" || e.channel_type = "group"
  let mention := hasBotMention botUserId e
  let isInThread := truthyS e.thread_ts
  let isBot := truthyS e.bot_id
  if isBot then false
  else if isDM then true
  else if isChannel then
    if mention then true
    else if isInThread && truthyS e.text then mention
    else false
  else false

/-- Eligibility filter, second revision (`src/app.js` lines 645–664): in
channels a thread anchor alone suffices. -/
def shouldProcessMessage2 (botUserId : String) (e : SlackEvent) : Bool :=
  let isDM := e.channel_type = "im"
  let isChannel := e.channel_type = "channel" || e.channel_type = "group"
  let mention := hasBotMention botUserId e
  let isInThread := truthyS e.thread_ts
  let isBot := truthyS e.bot_id
  if isBot then false
  else if isDM then true
  else if isChannel && (mention || isInThread) then true
  else false

/-! ## Session-key derivation (`src/app.js` lines 696–701,
`src/unnamed/part_000` lines 247–250) -/

/-- `const conversationId = event.thread_ts || event.ts`: the thread anchor
when truthy, otherwise the message's own timestamp. -/
def conversationId (e : SlackEvent) : String :=
  match e.thread_ts with
  | some t => if t = "" then e.ts else t
  | none => e.ts

/-- Session key sent to the prediction service:
`slack_dm_${channel}_${conversationId}` for DMs and
`slack_${channel}_${conversationId}` otherwise. -/
def sessionId (e : SlackEvent) : String :=
  if e.channel_type = "im" then
    "slack_dm_" ++ e.channel ++ "_" ++ conversationId e
  else
    "slack_" ++ e.channel ++ "_" ++ conversationId e

/-! ## Concrete inputs used by witnesses and evaluations -/

/-- A bot-authored DM event (witness input for C3). -/
def botEvt : SlackEvent :=
  ⟨some "hello <@U1>", "C1", "im", "100.1", some "99.5", some "B7"⟩

/-- A mention-free, thread-free channel message (witness input for C4). -/
def plainChannelEvt : SlackEvent :=
  ⟨some "hello there", "C1", "channel", "100.1", none, none⟩

/-- First of two events agreeing on channel type, channel and anchor
(witness input for C7). -/
def evtA : SlackEvent :=
  ⟨some "first question", "C9", "channel", "200.1", some "150.7", none⟩

/-- Second of two events agreeing on channel type, channel and anchor
(witness input for C7); it reaches the same anchor through its own `ts`. -/
def evtB : SlackEvent :=
  ⟨some "second question", "C9", "channel", "150.7", none, some ""⟩

/-- The markdown table of the round-trip claim. -/
def tableInput : String := "| A | B |\n|---|---|\n| 1 | 2 |\n"

/-- Payload with a top-level `text` field. -/
def payloadHi : FlowisePayload := ⟨some "hi", none⟩

/-- The empty payload `{}`. -/
def payloadEmpty : FlowisePayload := ⟨none, none⟩

/-- Payload with the nested assistant-messages shape. -/
def payloadYo : FlowisePayload :=
  ⟨none, some ⟨[⟨"assistant", [⟨some ⟨some "yo"⟩⟩]⟩]⟩⟩

/-- Payload whose `text` field is present but empty. -/
def payloadEmptyText : FlowisePayload := ⟨some "", none⟩

/-! ## Split/join theory for the block segmenter -/

theorem splitDN_ne_nil (l : List Char) : splitDN l ≠ [] := by
  rw [splitDN.eq_def]
  split
  · simp
  · simp
  · split <;> simp

theorem joinDNL_cons (x : List Char) (xs : List (List Char)) (hxs : xs ≠ []) :
    joinDNL (x :: xs) = x ++ '\n' :: '\n' :: joinDNL xs := by
  cases xs with
  | nil => exact absurd rfl hxs
  | cons y ys => rfl

theorem joinDNL_splitDN (l : List Char) : joinDNL (splitDN l) = l := by
  induction l using splitDN.induct with
  | case1 => rfl
  | case2 rest ih =>
    rw [splitDN, joinDNL_cons _ _ (splitDN_ne_nil rest), ih]
    rfl
  | case3 c rest h hnil ih => exact absurd hnil (splitDN_ne_nil rest)
  | case4 c rest h seg segs hs ih =>
    have hsp : splitDN (c :: rest) = (c :: seg) :: segs := by
      rw [splitDN.eq_def]
      split
      · simp_all
      · next rest1 heq =>
        exfalso
        injection heq with h1 h2
        exact h rest1 h1 h2
      · next c2 rest2 hguard heq =>
        injection heq with h1 h2
        subst h1; subst h2
        rw [hs]
    rw [hsp]
    rw [hs] at ih
    cases segs with
    | nil => simpa [joinDNL] using congrArg (c :: ·) ih
    | cons s2 ss =>
      rw [joinDNL_cons _ _ (by simp)]
      rw [joinDNL_cons _ _ (by simp)] at ih
      rw [← ih]
      simp

theorem mk_append (a b : List Char) :
    String.mk a ++ String.mk b = String.mk (a ++ b) := rfl

theorem joinDN_map_mk (ls : List (List Char)) :
    joinDN (ls.map String.mk) = String.mk (joinDNL ls) := by
  induction ls with
  | nil => rfl
  | cons x xs ih =>
    cases xs with
    | nil => rfl
    | cons y ys =>
      have h1 : joinDN (List.map String.mk (x :: y :: ys)) =
          String.mk x ++ "\n\n" ++ joinDN (List.map String.mk (y :: ys)) := rfl
      have h2 : joinDNL (x :: y :: ys) = x ++ '\n' :: '\n' :: joinDNL (y :: ys) := rfl
      rw [h1, ih, h2, show ("\n\n" : String) = String.mk ['\n', '\n'] from rfl,
        mk_append, mk_append]
      simp [List.append_assoc]

theorem createSlackBlocks_eq (s : String) :
    createSlackBlocks s =
      (jsSplitDN s).map (fun seg => ⟨"section", ⟨"mrkdwn", seg⟩⟩) := by
  rw [createSlackBlocks]
  simp only [ite_self]

/-! ## Claim theorems -/

/-- Claim C9: the block segmenter is content-preserving — every block is a
`section` whose `mrkdwn` text is the corresponding `"\n\n"`-separated
segment of the input, and joining the block texts with `"\n\n"` in order
reconstructs the input string exactly. -/
theorem createSlackBlocks_content_preserving (s : String) :
    (createSlackBlocks s).map (fun b => b.text.text) = jsSplitDN s ∧
    (∀ b ∈ createSlackBlocks s, b.type = "section" ∧ b.text.type = "mrkdwn") ∧
    joinDN ((createSlackBlocks s).map (fun b => b.text.text)) = s := by
  have hmap : (createSlackBlocks s).map (fun b => b.text.text) = jsSplitDN s := by
    rw [createSlackBlocks_eq, List.map_map]
    simp [Function.comp_def]
  refine ⟨hmap, ?_, ?_⟩
  · intro b hb
    rw [createSlackBlocks_eq] at hb
    rcases List.mem_map.mp hb with ⟨seg, hseg, hb2⟩
    subst hb2
    exact ⟨rfl, rfl⟩
  · rw [hmap, jsSplitDN, joinDN_map_mk, joinDNL_splitDN]

/-- Witness for C9 at the concrete input `"a\n\nb"`. -/
theorem createSlackBlocks_content_preserving_witness :
    (createSlackBlocks "a\n\nb").map (fun b => b.text.text) = jsSplitDN "a\n\nb" ∧
    (∀ b ∈ createSlackBlocks "a\n\nb", b.type = "section" ∧ b.text.type = "mrkdwn") ∧
    joinDN ((createSlackBlocks "a\n\nb").map (fun b => b.text.text)) = "a\n\nb" :=
  createSlackBlocks_content_preserving "a\n\nb"

/-- Counterexample to claim C6: on the empty input the segmenter does not
return an empty sequence of blocks (JavaScript `''.split('\n\n')` is
`['']`). -/
theorem createSlackBlocks_empty_ne_nil : createSlackBlocks "" ≠ [] := by decide

/-- Claim C6 as amended: `"a\n\nb\n\nc"` segments into the three text
blocks `["a", "b", "c"]` in order, while the empty input yields one section
block whose text is the empty string. -/
theorem createSlackBlocks_segments :
    (createSlackBlocks "a\n\nb\n\nc").map (fun b => b.text.text) = ["a", "b", "c"] ∧
    createSlackBlocks "" = [⟨"section", ⟨"mrkdwn", ""⟩⟩] := by decide

set_option maxRecDepth 100000

/-- Claim C1 evaluated on the code: on the table input the transcoder does
return a triple-backtick fenced block with the separator row absent, cells
joined with `" | "` and body line `1 | 2`, and `convertTable` itself bolds
the header cells to `*A* | *B*`; but in the full pipeline the later
single-asterisk italic pass rewrites the bolded header cells, so the final
header line is `_A_ | _B_`, not `*A* | *B*` as the claim states. -/
theorem convertMarkdownToSlack_table_eval :
    convertMarkdownToSlack tableInput = "```_A_ | _B_\n1 | 2\n```" ∧
    convertTable tableInput = "```*A* | *B*\n1 | 2\n```" :=
  ⟨by rfl, by rfl⟩

/-- Claim C2 evaluated on the code: the two italic mappings hold, but
`"**bold**"` maps to `"_bold_"`, not `"*bold*"`: the bold pass first
produces `*bold*`, and the single-asterisk italic rule then re-matches that
already-converted bold run, contrary to the stated ordering rationale. -/
theorem convertMarkdownToSlack_bold_italic_eval :
    convertMarkdownToSlack "**bold**" = "_bold_" ∧
    convertMarkdownToSlack "_ital_" = "_ital_" ∧
    convertMarkdownToSlack "*ital*" = "_ital_" :=
  ⟨by rfl, by rfl, by rfl⟩

/-- Claim C5: the response extractor is a total function into strings; on a
payload with a truthy top-level `text` it returns the transcoded text, on
the nested assistant-messages shape it returns the transcoded value, and on
the empty payload it returns the fixed apology string. -/
theorem extractCleanResponse_shapes :
    extractCleanResponse payloadHi = "hi" ∧
    extractCleanResponse payloadEmpty = apologyProcess ∧
    extractCleanResponse payloadYo = "yo" :=
  ⟨by rfl, by rfl, by rfl⟩

/-- Counterexample to claim C8: the transcoder is not idempotent on
already-converted single-asterisk bold — `*b*` is not left fixed. -/
theorem convertMarkdownToSlack_not_fixed_on_bold :
    convertMarkdownToSlack "*b*" ≠ "*b*" := by decide

/-- Claim C8 as amended: re-running the transcoder preserves
already-converted underscore-italic and bullet-glyph list markers (shown on
a representative marker-only input), but not already-converted
single-asterisk bold, which the single-asterisk italic rule rewrites to
underscore italic. -/
theorem convertMarkdownToSlack_fixed_on_italic_and_bullets :
    convertMarkdownToSlack "_ital_\n• item" = "_ital_\n• item" ∧
    convertMarkdownToSlack "*b*" = "_b_" :=
  ⟨by rfl, by rfl⟩

/-- Claim C10: a present-but-empty top-level `text` field is falsy, so both
revisions of the extractor return the fixed apology string rather than the
transcoded empty text. -/
theorem extractCleanResponse_empty_text_apology :
    extractCleanResponse payloadEmptyText = apologyProcess ∧
    extractCleanResponseV1 payloadEmptyText = apologyProcess :=
  ⟨by rfl, by rfl⟩

/-- Claim C3: for every incoming message event whose sender is a bot (the
event's `bot_id` is truthy, the sender-is-bot test of the source), both
revisions of the eligibility filter return `false`, regardless of channel
type, text, thread anchor, or any other field. -/
theorem shouldProcess_bot_never (u : String) (e : SlackEvent)
    (h : truthyS e.bot_id = true) :
    shouldProcessMessage u e = false ∧ shouldProcessMessage2 u e = false := by
  constructor <;> simp [shouldProcessMessage, shouldProcessMessage2, h]

/-- Witness for C3: a concrete bot-authored DM event is rejected by both
revisions. -/
theorem shouldProcess_bot_never_witness :
    shouldProcessMessage "U1" botEvt = false ∧
      shouldProcessMessage2 "U1" botEvt = false :=
  shouldProcess_bot_never "U1" botEvt (by decide)

/-- Claim C4: a channel (or group) message from a non-bot sender whose text
contains no mention of the bot identity and which carries no thread anchor
is rejected by both revisions of the eligibility filter. -/
theorem shouldProcess_channel_needs_anchor (u : String) (e : SlackEvent)
    (hch : e.channel_type = "channel" ∨ e.channel_type = "group")
    (_hbot : truthyS e.bot_id = false)
    (hmention : hasBotMention u e = false)
    (hthread : e.thread_ts = none) :
    shouldProcessMessage u e = false ∧ shouldProcessMessage2 u e = false := by
  constructor <;>
    rcases hch with h | h <;>
      simp [shouldProcessMessage, shouldProcessMessage2, truthyS, h,
        hmention, hthread]

/-- Witness for C4: a concrete mention-free, thread-free channel message is
rejected by both revisions. -/
theorem shouldProcess_channel_needs_anchor_witness :
    shouldProcessMessage "U1" plainChannelEvt = false ∧
      shouldProcessMessage2 "U1" plainChannelEvt = false :=
  shouldProcess_channel_needs_anchor "U1" plainChannelEvt (Or.inl rfl)
    (by decide) (by decide) rfl

/-- Claim C7: the session key is a function of exactly the channel type, the
channel id, and the conversation anchor (`thread_ts` when truthy, else `ts`):
two events agreeing on those three produce equal session keys. -/
theorem sessionId_deterministic (a b : SlackEvent)
    (hct : a.channel_type = b.channel_type)
    (hch : a.channel = b.channel)
    (hanchor : conversationId a = conversationId b) :
    sessionId a = sessionId b := by
  simp [sessionId, hct, hch, hanchor]

/-- Witness for C7: two concrete events differing in text, timestamp and
bot-id but agreeing on channel type, channel and anchor get the same key. -/
theorem sessionId_deterministic_witness :
    sessionId evtA = sessionId evtB :=
  sessionId_deterministic evtA evtB rfl rfl (by decide)
